import Mathlib

/-!
Verification of the maia_business_profiles pipeline (`src/main.py`).

The program is a single event-triggered function: it decodes a triggering
event into a phone number, queries a message warehouse for that number's
inbound message history, asks a generative model to synthesize a business
profile, and pushes the profile to a contact-management HTTP API.

The embedding below translates the Python control flow directly.  External
library calls (base64/JSON decoding, the warehouse query execution, the
generative-model call, the outbound HTTP request) are modelled by the
outcome the library reports back to the program, carried in the input:
the program only ever branches on those outcomes.  Machine effects are
made explicit: every function returns, besides its value, the list of
outbound external calls it performs (and, for the publish stage, the log
lines it prints), so that "no external call occurs" is a statement about
the program's output.

The history query gets two treatments.  Its name analysis is modelled
from the query text and GoogleSQL scoping rules: the outer WHERE
references the SELECT alias `message`, which is not in scope there, so
the query is rejected on every execution and each deployed run takes the
query-failure branch of the fetch stage.  Separately, the row semantics
the query's comments intend (filter, windowed dedup, order, limit) is
modelled to state what the corrected query would compute.
-/

namespace MaiaProfiles

/-- Substring test on character lists: models Python `needle in hay` on
strings and SQL `LIKE CONCAT(ChrPercent, needle, ChrPercent)`. An empty
needle matches everything, as in both Python and SQL. -/
def infixOf : List Char → List Char → Bool
  | n, [] => n.isEmpty
  | n, c :: t => n.isPrefixOf (c :: t) || infixOf n t

/-- Python `needle in hay` for strings: `strContains hay needle`. -/
def strContains (hay needle : String) : Bool :=
  infixOf needle.data hay.data

/-- Python `s.lstrip("+")` : removes EVERY leading plus character. -/
def lstripPlus (s : String) : String :=
  ⟨s.data.dropWhile (· == '+')⟩

/-- Python `s.rstrip("/")` : removes every trailing slash. -/
def rstripSlash (s : String) : String :=
  ⟨(s.data.reverse.dropWhile (· == '/')).reverse⟩

/-- The opaque `data` field of a Pub/Sub event, modelled by the outcome of
the decoding chain the program applies to it:
`base64.b64decode(event["data"]).decode("utf-8")` followed by `json.loads`.
The program never looks at the raw payload except through this chain. -/
inductive DataPayload
  /-- `base64.b64decode` raises (`binascii.Error` on bad padding, or
  `TypeError` on a non-string value). Not a `json.JSONDecodeError`. -/
  | badBase64
  /-- the decoded bytes are not valid UTF-8: `UnicodeDecodeError`.
  Not a `json.JSONDecodeError`. -/
  | badUtf8
  /-- decoded to text `s`, but `json.loads s` raises `json.JSONDecodeError`. -/
  | badJson (s : String)
  /-- parsed to a JSON value that is not an object (list, number, ...):
  `message_data.get` then raises `AttributeError`. -/
  | jsonNonDict (s : String)
  /-- parsed to a JSON object; field values are restricted to the
  string-valued case, the only one this system produces and consumes. -/
  | jsonDict (fields : List (String × String))
deriving DecidableEq

/-- A triggering event that is a Python mapping.  Only the three keys the
program reads are modelled; `Option.none` means the key is absent. -/
structure EventDict where
  httpMethod : Option String
  data : Option DataPayload
  phone_number : Option String
deriving DecidableEq

/-- A triggering event: either a raw string (manual invocation) or a
mapping. -/
inductive Event
  | str (s : String)
  | dict (d : EventDict)
deriving DecidableEq

/-- Result of the event-decoding prologue of `generate_and_push_profile`
(`src/main.py` lines 214-261): either the CORS preflight short-circuit, an
extracted phone number, or an early error return with its HTTP status. -/
inductive DecodeResult
  | options
  | phone (p : String)
  | err400 (msg : String)
  | err500 (msg : String)
deriving DecidableEq

/-- The event-decoding prologue of `generate_and_push_profile`.

Control flow from the source: the `OPTIONS` check runs first (mappings
only); then, inside `try`, the branches are tested in this order:
`"data" in event`, `isinstance(event, str)`, `"phone_number" in event`.
On a string event, `"data" in event` is a SUBSTRING test, and when it
succeeds `event["data"]` raises `TypeError`, caught by the generic
`except Exception` handler (status 500).  In the `data` branch,
`binascii.Error`, `UnicodeDecodeError` and `AttributeError` fall to the
generic handler (500) while `json.JSONDecodeError` has its own handler
(400); a missing or falsy `phone_number` value returns 400. -/
def decodeEvent : Event → DecodeResult
  | .str s =>
    if strContains s "data" then .err500 "Error processing event"
    else .phone s
  | .dict d =>
    if d.httpMethod = some "OPTIONS" then .options
    else
      match d.data with
      | some payload =>
        match payload with
        | .badBase64 => .err500 "Error processing event"
        | .badUtf8 => .err500 "Error processing event"
        | .badJson _ => .err400 "Error decoding JSON"
        | .jsonNonDict _ => .err500 "Error processing event"
        | .jsonDict fields =>
          match fields.lookup "phone_number" with
          | none => .err400 "Error: phone_number missing in payload."
          | some p =>
            if p = "" then .err400 "Error: phone_number missing in payload."
            else .phone p
      | none =>
        match d.phone_number with
        | some p => .phone p
        | none => .err400 "Error: Invalid request format or missing phone_number."

/-- One row of the warehouse messages table, with the columns the query
reads.  `inserted_at` is modelled as a natural number: the query orders and
partitions by the timestamp, and only its ordering matters. -/
structure MessageRow where
  content : Option String
  rendered_content : Option String
  template_button_text : Option String
  inserted_at : Nat
  direction : String
  from_addr : String
  addressees : String
deriving DecidableEq

/-- The resolved text `COALESCE(content, rendered_content, template_button_text)`,
the `message` alias of the query. -/
def coalesce3 (r : MessageRow) : Option String :=
  (r.content.orElse fun _ => r.rendered_content).orElse fun _ => r.template_button_text

/-- The outer `COALESCE(message, rendered_content, template_button_text)`
of the query's `IS NOT NULL` filter, where `message` is already
`coalesce3`. -/
def outerCoalesce (r : MessageRow) : Option String :=
  ((coalesce3 r).orElse fun _ => r.rendered_content).orElse fun _ => r.template_button_text

/-- The deduplication key of the query's window:
`PARTITION BY COALESCE(content, rendered_content, template_button_text), inserted_at`. -/
def dedupKey (r : MessageRow) : Option String × Nat :=
  (coalesce3 r, r.inserted_at)

/-- The inner `WHERE` of the query:
`from_addr = phone OR addressees LIKE ChrPercent phone ChrPercent`. -/
def matchesPhone (phone : String) (r : MessageRow) : Bool :=
  r.from_addr == phone || strContains r.addressees phone

/-- The windowed dedup `ROW_NUMBER() OVER (PARTITION BY ... ORDER BY ...)`
followed by the `rn = 1` filter: one row kept per `dedupKey`.
Within a partition every row has the same timestamp (it is part of the
key), so the window's `ORDER BY` is a tie throughout, and the engine's
choice among the tied rows is arbitrary — which row survives is NOT
guaranteed.  This model fixes one choice (input order, first row wins)
to stay executable; accordingly, the development below asserts of the
deduplication only what does not depend on which tied row survives
(at most one row per key), never which particular row is kept. -/
def keepFirstByKey : List MessageRow → List (Option String × Nat) → List MessageRow
  | [], _ => []
  | r :: rs, seen =>
    if dedupKey r ∈ seen then keepFirstByKey rs seen
    else r :: keepFirstByKey rs (dedupKey r :: seen)

/-- The query ordering `ORDER BY TIMESTAMP(inserted_at) ASC`. -/
def byTs (a b : MessageRow) : Prop :=
  a.inserted_at ≤ b.inserted_at

instance : DecidableRel byTs := fun _ _ => Nat.decLe _ _

instance : IsTotal MessageRow byTs := ⟨fun _ _ => Nat.le_total _ _⟩

instance : IsTrans MessageRow byTs := ⟨fun _ _ _ h h2 => Nat.le_trans h h2⟩

/-- The INTENDED semantics of `message_history_query` (`src/main.py`
lines 70-107), as described by the query's own inline comments: phone
filter, windowed dedup, direction and non-null filters, ascending order,
`LIMIT 50`, projecting `(message, inserted_at)`.

This success path is unreachable in the deployed code: the query text
itself is rejected by GoogleSQL name analysis — its outer `WHERE`
references `message`, the alias of its own SELECT list, which is not a
column of the subquery and is not visible in `WHERE` scope (see
`messageHistoryQueryAnalyzes` below) — so every execution raises and the
fetch stage takes its exception branch.  `runQuery` states what the
corrected query would compute; the deployed behaviour is the
`WarehouseBehavior.failure` case. -/
def runQuery (table : List MessageRow) (phone : String) : List (Option String × Nat) :=
  let filtered := table.filter (matchesPhone phone)
  let deduped := keepFirstByKey filtered []
  let kept := deduped.filter fun r => r.direction == "inbound" && (outerCoalesce r).isSome
  let sorted := kept.insertionSort byTs
  (sorted.take 50).map dedupKey

/-- Output columns of the inner subquery of `message_history_query`
(`src/main.py` lines 79-95), transcribed from its SELECT list: the five
projected message columns plus the window alias `rn`.  These are the only
names the outer `WHERE` clause can see. -/
def subqueryOutputColumns : List String :=
  ["content", "direction", "rendered_content", "template_button_text", "inserted_at", "rn"]

/-- Column names referenced by the outer `WHERE` clause of the query
(`src/main.py` lines 96-103), transcribed from its three conjuncts:
`rn = 1`, `direction = 'inbound'`, and
`COALESCE(message, rendered_content, template_button_text) IS NOT NULL`.
The name `message` is the alias of the outer SELECT list itself (the code
comment at line 100 says as much), not a column of the subquery. -/
def outerWhereColumnRefs : List String :=
  ["rn", "direction", "message", "rendered_content", "template_button_text"]

/-- GoogleSQL name analysis for the outer `WHERE` clause: a `WHERE`
clause resolves names only against its FROM clause — here the subquery's
output columns — and never against the aliases of its own SELECT list
(those are visible only in `GROUP BY`, `ORDER BY`, `HAVING` and
`QUALIFY`).  Analysis succeeds iff every referenced name resolves.  It
does not: `message` resolves to nothing, so BigQuery rejects the query
(Unrecognized name: message) on every execution, before reading any row. -/
def messageHistoryQueryAnalyzes : Bool :=
  outerWhereColumnRefs.all fun n => subqueryOutputColumns.contains n

/-- Behaviour of the warehouse on the one query the program runs: either
the query raises (any exception), or it returns the rows of the table.
Because the deployed query text fails name analysis (see
`messageHistoryQueryAnalyzes`), every actual run takes the `failure`
case; the `table` case represents the corrected query, and the pipeline
theorems below are quantified over both. -/
inductive WarehouseBehavior
  | failure
  | table (rows : List MessageRow)

/-- Behaviour of the generative-model endpoint: `generate_content` either
raises, or returns a response whose `parts` carry the given text pieces
(`response.text` concatenates them; an empty list means no parts). -/
inductive GeminiBehavior
  | error
  | response (parts : List String)

/-- Behaviour of the outbound HTTP PATCH: `requests.patch` either returns
a response with a status code and body, or raises a `RequestException`. -/
inductive TurnBehavior
  | response (status : Nat) (body : String)
  | requestError

/-- One outbound external call made by the program. -/
inductive Call
  | bigquery (phone : String)
  | gemini (prompt : String)
  | turnPatch (url : String) (business_profile : String)
deriving DecidableEq

/-- The external world as the program observes it in one run, plus the
configured publish endpoint base. -/
structure Env where
  warehouse : WarehouseBehavior
  gemini : GeminiBehavior
  turn : TurnBehavior
  turnEndpointBase : String

/-- Python `fetch_message_history` (`src/main.py` lines 55-118): runs the query
(one warehouse call) and extracts the non-null `message` column; any
exception is caught and an empty list returned. -/
def fetch_message_history (wh : WarehouseBehavior) (phone_number : String) :
    List String × List Call :=
  match wh with
  | .failure => ([], [.bigquery phone_number])
  | .table rows => ((runQuery rows phone_number).filterMap Prod.fst, [.bigquery phone_number])

/-- The fixed instruction text of the Gemini prompt (`src/main.py`
lines 133-141), a system constant. -/
def promptInstruction : String :=
  "Estos mensajes fueron enviados por el propietario de una microempresa. " ++
  "Escribe un perfil de negocio de máximo 100 palabras. " ++
  "Este perfil NO será leído por un humano, se entregará como contexto a una LLM que responderá " ++
  "futuras preguntas del propietario. Por lo tanto, sé eficiente y optimizado. " ++
  "Incluye contexto importante para asegurar que los futuros consejos sean relevantes y útiles, " ++
  "tales como características clave del negocio (sector, productos, etc.), " ++
  "así como los principales problemas y prioridades del propietario. "

/-- The full prompt: instruction text plus the newline-joined history. -/
def buildPrompt (messages : List String) : String :=
  promptInstruction ++ "Historial de mensajes:\n" ++ String.intercalate "\n" messages

/-- Python `generate_business_profile_with_gemini` (`src/main.py` lines 120-159):
empty input short-circuits to the empty string without a model call;
otherwise one model call is made, and a raised exception or a response
with no parts yields the empty string. -/
def generate_business_profile_with_gemini (g : GeminiBehavior) (messages : List String)
    (_phone_number : String) : String × List Call :=
  if messages.isEmpty then ("", [])
  else
    let prompt := buildPrompt messages
    match g with
    | .error => ("", [.gemini prompt])
    | .response parts =>
      (if parts.isEmpty then "" else String.join parts, [.gemini prompt])

/-- Python `push_profile_to_turn` (`src/main.py` lines 161-200): empty summary
short-circuits without a request; otherwise the phone number is
plus-stripped, the endpoint composed, one PATCH issued, and every failing
outcome (`raise_for_status` on a 4xx/5xx, or a network-level
`RequestException`) is caught and logged, never raised.  Returns the calls
made and the log lines printed after the request. -/
def push_profile_to_turn (t : TurnBehavior) (phone_number business_summary : String)
    (endpointBase : String) : List Call × List String :=
  if business_summary = "" then
    ([], ["No business summary to push for " ++ phone_number ++ "."])
  else
    let cleaned_phone_number := lstripPlus phone_number
    let turn_api_endpoint := rstripSlash endpointBase ++ "/" ++ cleaned_phone_number ++ "/profile"
    let calls := [Call.turnPatch turn_api_endpoint business_summary]
    match t with
    | .response status _body =>
      if 400 ≤ status ∧ status < 600 then
        (calls, ["HTTP error pushing profile to Turn for " ++ cleaned_phone_number])
      else
        (calls, ["Successfully pushed profile for " ++ cleaned_phone_number ++ " to Turn."])
    | .requestError =>
      (calls, ["Request error pushing profile to Turn for " ++ cleaned_phone_number])

/-- An HTTP-style response triple (body, status, headers). -/
structure Resp where
  body : String
  status : Nat
  headers : List (String × String)
deriving DecidableEq

/-- The default response headers of `generate_and_push_profile`. -/
def response_headers : List (String × String) :=
  [("Access-Control-Allow-Origin", "*")]

/-- The CORS preflight headers. -/
def corsHeaders : List (String × String) :=
  [("Access-Control-Allow-Origin", "*"),
   ("Access-Control-Allow-Methods", "POST, GET, OPTIONS"),
   ("Access-Control-Allow-Headers", "Content-Type, x-api-key"),
   ("Access-Control-Max-Age", "3600")]

/-- Python `generate_and_push_profile` (`src/main.py` lines 205-288): the main
entry point.  Decode the event; on success fetch the history, stop with
200 when it is empty, synthesize the profile, stop with 500 when it is
empty, push it (best effort) and return 200.  The second component is the
list of outbound calls made during the run. -/
def generate_and_push_profile (env : Env) (event : Event) : Resp × List Call :=
  match decodeEvent event with
  | .options => (⟨"", 204, corsHeaders⟩, [])
  | .err400 m => (⟨m, 400, response_headers⟩, [])
  | .err500 m => (⟨m, 500, response_headers⟩, [])
  | .phone p =>
    let fr := fetch_message_history env.warehouse p
    if fr.1.isEmpty then
      (⟨"No messages found for " ++ p ++ ". Profile not generated.", 200, response_headers⟩,
        fr.2)
    else
      let gr := generate_business_profile_with_gemini env.gemini fr.1 p
      if gr.1 = "" then
        (⟨"Failed to generate profile for " ++ p ++ ".", 500, response_headers⟩, fr.2 ++ gr.2)
      else
        let pr := push_profile_to_turn env.turn p gr.1 env.turnEndpointBase
        (⟨"Profile generation and push attempt completed successfully.", 200, response_headers⟩,
          fr.2 ++ gr.2 ++ pr.1)

/-- Whether a call trace contains a generative-model call. -/
def hasGeminiCall : List Call → Bool
  | [] => false
  | .gemini _ :: _ => true
  | _ :: rest => hasGeminiCall rest

/-- Whether a call trace contains an outbound publish request. -/
def hasTurnCall : List Call → Bool
  | [] => false
  | .turnPatch _ _ :: _ => true
  | _ :: rest => hasTurnCall rest

/-- Whether an outcome of the publish request is a failing one in the
sense of the error taxonomy: a non-2xx response status, or a
network-level failure. -/
def TurnBehavior.failing : TurnBehavior → Bool
  | .response status _ => if 200 ≤ status ∧ status < 300 then false else true
  | .requestError => true

/-! Concrete fixtures used to instantiate the theorems below. -/

/-- An inbound row whose sender is `+515550`. -/
def rowInbound : MessageRow :=
  ⟨some "hola", none, none, 1, "inbound", "+515550", ""⟩

/-- A world where the warehouse query raises — the case every deployed
run takes, since the query fails name analysis. -/
def envFail : Env :=
  ⟨.failure, .error, .requestError, "https://whatsapp.turn.io/v1/contacts/"⟩

/-- A world with one stored message and a model response with no parts. -/
def envNoParts : Env :=
  ⟨.table [rowInbound], .response [], .requestError, "https://whatsapp.turn.io/v1/contacts/"⟩

/-- A world with one stored message, a successful generation, and a
publish endpoint answering 500. -/
def envPushFail : Env :=
  ⟨.table [rowInbound], .response ["perfil"], .response 500 "err",
   "https://whatsapp.turn.io/v1/contacts/"⟩

/-- An encoded-payload event whose decoded JSON object carries an empty
`phone_number` value. -/
def eventEmptyPhoneData : Event :=
  .dict ⟨none, some (.jsonDict [("phone_number", "")]), none⟩

/-- A direct-mapping event whose `phone_number` key holds the empty string. -/
def eventEmptyPhoneDirect : Event :=
  .dict ⟨none, none, some ""⟩

/-- An event whose encoded `data` payload is not valid base64. -/
def eventBadBase64 : Event :=
  .dict ⟨none, some .badBase64, none⟩

/-! General lemmas about the stages, shared by the claim theorems. -/

/-- The history-fetch stage always performs exactly one warehouse call. -/
theorem fetch_calls_eq (wh : WarehouseBehavior) (p : String) :
    (fetch_message_history wh p).2 = [Call.bigquery p] := by
  cases wh <;> rfl

/-- The synthesis stage performs no call on empty input, and exactly one
model call otherwise. -/
theorem gen_calls_cases (g : GeminiBehavior) (msgs : List String) (p : String) :
    (generate_business_profile_with_gemini g msgs p).2 = [] ∨
    (generate_business_profile_with_gemini g msgs p).2 = [Call.gemini (buildPrompt msgs)] := by
  unfold generate_business_profile_with_gemini
  cases g <;> by_cases h : msgs.isEmpty <;> simp [h]

/-- Membership of a publish call distributes over trace concatenation. -/
theorem hasTurnCall_append (a b : List Call) :
    hasTurnCall (a ++ b) = (hasTurnCall a || hasTurnCall b) := by
  induction a with
  | nil => rfl
  | cons c rest ih => cases c <;> simp [hasTurnCall, ih]

/-- The synthesis stage never performs a publish call. -/
theorem gen_no_turn (g : GeminiBehavior) (msgs : List String) (p : String) :
    hasTurnCall (generate_business_profile_with_gemini g msgs p).2 = false := by
  rcases gen_calls_cases g msgs p with h | h <;> rw [h] <;> rfl

/-- Pipeline reduction: decoded phone and empty history give the 200
no-op response, with the warehouse query as the only external call. -/
theorem pipeline_phone_empty (env : Env) (event : Event) (p : String)
    (hdec : decodeEvent event = .phone p)
    (hempty : (fetch_message_history env.warehouse p).1 = []) :
    generate_and_push_profile env event =
      (⟨"No messages found for " ++ p ++ ". Profile not generated.", 200, response_headers⟩,
        [Call.bigquery p]) := by
  unfold generate_and_push_profile
  rw [hdec]
  simp [hempty, fetch_calls_eq]

/-- Pipeline reduction: decoded phone, non-empty history and empty
synthesis give the 500 response, without reaching the publish stage. -/
theorem pipeline_phone_synthfail (env : Env) (event : Event) (p : String)
    (hdec : decodeEvent event = .phone p)
    (hne : (fetch_message_history env.warehouse p).1 ≠ [])
    (hsum : (generate_business_profile_with_gemini env.gemini
        (fetch_message_history env.warehouse p).1 p).1 = "") :
    generate_and_push_profile env event =
      (⟨"Failed to generate profile for " ++ p ++ ".", 500, response_headers⟩,
        [Call.bigquery p] ++ (generate_business_profile_with_gemini env.gemini
          (fetch_message_history env.warehouse p).1 p).2) := by
  unfold generate_and_push_profile
  rw [hdec]
  simp [List.isEmpty_eq_false.mpr hne, hsum, fetch_calls_eq]

/-- Pipeline reduction: decoded phone, non-empty history and non-empty
synthesis give the 200 success response after the publish attempt. -/
theorem pipeline_phone_success (env : Env) (event : Event) (p : String)
    (hdec : decodeEvent event = .phone p)
    (hne : (fetch_message_history env.warehouse p).1 ≠ [])
    (hsum : (generate_business_profile_with_gemini env.gemini
        (fetch_message_history env.warehouse p).1 p).1 ≠ "") :
    generate_and_push_profile env event =
      (⟨"Profile generation and push attempt completed successfully.", 200, response_headers⟩,
        [Call.bigquery p] ++ (generate_business_profile_with_gemini env.gemini
          (fetch_message_history env.warehouse p).1 p).2 ++
        (push_profile_to_turn env.turn p (generate_business_profile_with_gemini env.gemini
          (fetch_message_history env.warehouse p).1 p).1 env.turnEndpointBase).1) := by
  unfold generate_and_push_profile
  rw [hdec]
  simp [List.isEmpty_eq_false.mpr hne, hsum, fetch_calls_eq]

/-- Pipeline reduction: a 400 decode outcome is returned as-is, with no
external call. -/
theorem pipeline_err400 (env : Env) (event : Event) (m : String)
    (hdec : decodeEvent event = .err400 m) :
    generate_and_push_profile env event = (⟨m, 400, response_headers⟩, []) := by
  unfold generate_and_push_profile
  rw [hdec]

/-- Pipeline reduction: a 500 decode outcome is returned as-is, with no
external call. -/
theorem pipeline_err500 (env : Env) (event : Event) (m : String)
    (hdec : decodeEvent event = .err500 m) :
    generate_and_push_profile env event = (⟨m, 500, response_headers⟩, []) := by
  unfold generate_and_push_profile
  rw [hdec]

/-- The publish stage, on a non-empty summary, performs exactly the one
PATCH to the composed endpoint, whatever the outcome. -/
theorem push_calls_eq (t : TurnBehavior) (p s base : String) (h : s ≠ "") :
    (push_profile_to_turn t p s base).1 =
      [Call.turnPatch (rstripSlash base ++ "/" ++ lstripPlus p ++ "/profile") s] := by
  unfold push_profile_to_turn
  rw [if_neg h]
  cases t with
  | response status body => dsimp only; split <;> rfl
  | requestError => rfl

/-- The publish stage always prints a log line, whatever the outcome. -/
theorem push_log_ne_nil (t : TurnBehavior) (p s base : String) :
    (push_profile_to_turn t p s base).2 ≠ [] := by
  unfold push_profile_to_turn
  split
  · simp
  · cases t with
    | response status body => dsimp only; split <;> simp
    | requestError => simp

/-! Lemmas about the query semantics. -/

/-- The outer null filter of the query is redundant: coalescing the
already-coalesced `message` with the same fallbacks changes nothing. -/
theorem outerCoalesce_eq (r : MessageRow) : outerCoalesce r = coalesce3 r := by
  rcases r with ⟨c, rc, tb, ts, dir, fa, ad⟩
  cases c <;> cases rc <;> cases tb <;> rfl

/-- Windowed deduplication only discards rows. -/
theorem keepFirstByKey_sublist :
    ∀ (l : List MessageRow) (seen : List (Option String × Nat)),
      List.Sublist (keepFirstByKey l seen) l
  | [], _ => List.Sublist.refl []
  | r :: rs, seen => by
    unfold keepFirstByKey
    split
    · exact (keepFirstByKey_sublist rs seen).cons r
    · exact (keepFirstByKey_sublist rs _).cons₂ r

/-- The deduplication keys of the surviving rows are pairwise distinct
and avoid the already-seen keys. -/
theorem keepFirstByKey_keys_nodup :
    ∀ (l : List MessageRow) (seen : List (Option String × Nat)),
      ((keepFirstByKey l seen).map dedupKey).Nodup ∧
      ∀ k ∈ (keepFirstByKey l seen).map dedupKey, k ∉ seen
  | [], _ => ⟨List.nodup_nil, by simp [keepFirstByKey]⟩
  | r :: rs, seen => by
    unfold keepFirstByKey
    split
    · exact keepFirstByKey_keys_nodup rs seen
    · rename_i hnot
      obtain ⟨ihn, ihs⟩ := keepFirstByKey_keys_nodup rs (dedupKey r :: seen)
      refine ⟨?_, ?_⟩
      · simp only [List.map_cons, List.nodup_cons]
        exact ⟨fun hmem => (ihs _ hmem) (List.mem_cons_self _ _), ihn⟩
      · intro k hk
        simp only [List.map_cons, List.mem_cons] at hk
        rcases hk with rfl | hk
        · exact hnot
        · exact fun hks => (ihs k hk) (List.mem_cons_of_mem _ hks)

/-- Under the intended query semantics, the output never contains two
rows with the same (resolved text, timestamp) pair — a property that does
not depend on which tied row the window keeps. -/
theorem runQuery_keys_nodup (table : List MessageRow) (phone : String) :
    (runQuery table phone).Nodup := by
  have h1 : ((keepFirstByKey (table.filter (matchesPhone phone)) []).map dedupKey).Nodup :=
    (keepFirstByKey_keys_nodup _ _).1
  have h2 : (((keepFirstByKey (table.filter (matchesPhone phone)) []).filter
      (fun r => r.direction == "inbound" && (outerCoalesce r).isSome)).map dedupKey).Nodup :=
    h1.sublist ((List.filter_sublist _).map dedupKey)
  have h3 : ((((keepFirstByKey (table.filter (matchesPhone phone)) []).filter
      (fun r => r.direction == "inbound" && (outerCoalesce r).isSome)).insertionSort
        byTs).map dedupKey).Nodup :=
    (((List.perm_insertionSort byTs _).map dedupKey).symm).nodup h2
  exact h3.sublist ((List.take_sublist 50 _).map dedupKey)

/-! Claim theorems. -/

/-- C1: for every input event that decodes to a phone number whose
message history is empty, the pipeline returns a response with status 200
and does not invoke Profile Synthesis or Profile Publish (no model call
and no outbound HTTP request occur). -/
theorem claim1_empty_history_200_no_synthesis_no_publish
    (env : Env) (event : Event) (p : String)
    (hdec : decodeEvent event = .phone p)
    (hempty : (fetch_message_history env.warehouse p).1 = []) :
    (generate_and_push_profile env event).1.status = 200 ∧
    hasGeminiCall (generate_and_push_profile env event).2 = false ∧
    hasTurnCall (generate_and_push_profile env event).2 = false := by
  rw [pipeline_phone_empty env event p hdec hempty]
  exact ⟨rfl, rfl, rfl⟩

/-- Witness for C1: a direct string event against an unavailable
warehouse (empty history) yields 200 and no synthesis or publish call. -/
theorem claim1_witness :
    (generate_and_push_profile envFail (Event.str "+515550")).1.status = 200 ∧
    hasGeminiCall (generate_and_push_profile envFail (Event.str "+515550")).2 = false ∧
    hasTurnCall (generate_and_push_profile envFail (Event.str "+515550")).2 = false :=
  claim1_empty_history_200_no_synthesis_no_publish envFail (Event.str "+515550") "+515550"
    (by decide) (by decide)

/-- C2: for every input event with a non-empty message history, if the
profile-synthesis stage returns an empty string, the pipeline returns a
response with status 500 and Profile Publish is not invoked. -/
theorem claim2_empty_synthesis_500_no_publish
    (env : Env) (event : Event) (p : String)
    (hdec : decodeEvent event = .phone p)
    (hne : (fetch_message_history env.warehouse p).1 ≠ [])
    (hsum : (generate_business_profile_with_gemini env.gemini
        (fetch_message_history env.warehouse p).1 p).1 = "") :
    (generate_and_push_profile env event).1.status = 500 ∧
    hasTurnCall (generate_and_push_profile env event).2 = false := by
  rw [pipeline_phone_synthfail env event p hdec hne hsum]
  refine ⟨rfl, ?_⟩
  rw [hasTurnCall_append]
  rw [gen_no_turn env.gemini (fetch_message_history env.warehouse p).1 p]
  rfl

/-- Witness for C2: one stored message and a model response with no
parts yield a 500 status and no publish call. -/
theorem claim2_witness :
    (generate_and_push_profile envNoParts (Event.str "+515550")).1.status = 500 ∧
    hasTurnCall (generate_and_push_profile envNoParts (Event.str "+515550")).2 = false :=
  claim2_empty_synthesis_500_no_publish envNoParts (Event.str "+515550") "+515550"
    (by decide) (by decide) (by decide)

/-- C6: for every non-empty business profile, a failing outcome of the
publish request (non-2xx status or network-level failure) is handled
locally — the publish stage still prints a log line and raises nothing —
and the pipeline returns its success status 200. -/
theorem claim6_publish_failure_logged_pipeline_200
    (env : Env) (event : Event) (p : String)
    (hdec : decodeEvent event = .phone p)
    (hne : (fetch_message_history env.warehouse p).1 ≠ [])
    (hsum : (generate_business_profile_with_gemini env.gemini
        (fetch_message_history env.warehouse p).1 p).1 ≠ "")
    (_hfail : env.turn.failing = true) :
    (generate_and_push_profile env event).1.status = 200 ∧
    (push_profile_to_turn env.turn p
      (generate_business_profile_with_gemini env.gemini
        (fetch_message_history env.warehouse p).1 p).1 env.turnEndpointBase).2 ≠ [] := by
  refine ⟨?_, push_log_ne_nil _ _ _ _⟩
  rw [pipeline_phone_success env event p hdec hne hsum]

/-- Witness for C6: a publish endpoint answering 500 still lets the
pipeline finish with status 200, and a log line is printed. -/
theorem claim6_witness :
    (generate_and_push_profile envPushFail (Event.str "+515550")).1.status = 200 ∧
    (push_profile_to_turn envPushFail.turn "+515550"
      (generate_business_profile_with_gemini envPushFail.gemini
        (fetch_message_history envPushFail.warehouse "+515550").1 "+515550").1
      envPushFail.turnEndpointBase).2 ≠ [] :=
  claim6_publish_failure_logged_pipeline_200 envPushFail (Event.str "+515550") "+515550"
    (by decide) (by decide) (by decide) (by decide)

/-- C7: when the history-fetch query raises, History Fetch returns the
empty list (and the one warehouse call), propagating no error. -/
theorem claim7_fetch_failure_returns_empty (phone : String) :
    fetch_message_history WarehouseBehavior.failure phone = ([], [Call.bigquery phone]) :=
  rfl

/-- C10: the presence check on the extracted phone number differs by
event shape — an encoded-payload event whose decoded JSON has an empty
`phone_number` value returns 400 with no external calls, while a
direct-mapping event with an empty `phone_number` value is accepted and
the pipeline proceeds to the history fetch with the empty string. -/
theorem claim10_empty_phone_asymmetry (env : Env) :
    (generate_and_push_profile env eventEmptyPhoneData).1.status = 400 ∧
    (generate_and_push_profile env eventEmptyPhoneData).2 = [] ∧
    ∃ rest, (generate_and_push_profile env eventEmptyPhoneDirect).2 =
      Call.bigquery "" :: rest := by
  refine ⟨rfl, rfl, ?_⟩
  by_cases hemp : (fetch_message_history env.warehouse "").1 = []
  · rw [pipeline_phone_empty env eventEmptyPhoneDirect "" rfl hemp]
    exact ⟨[], rfl⟩
  · by_cases hsum : (generate_business_profile_with_gemini env.gemini
        (fetch_message_history env.warehouse "").1 "").1 = ""
    · rw [pipeline_phone_synthfail env eventEmptyPhoneDirect "" rfl hemp hsum]
      exact ⟨_, rfl⟩
    · rw [pipeline_phone_success env eventEmptyPhoneDirect "" rfl hemp hsum]
      exact ⟨_, rfl⟩

/-- Dropping leading plus characters leaves a list whose head is not a
plus; a list not starting with a plus is left unchanged. -/
theorem dropWhile_plus_of_head_ne (l : List Char) (h : l.head? ≠ some '+') :
    l.dropWhile (· == '+') = l := by
  cases l with
  | nil => rfl
  | cons c cs =>
    have hc : ¬((c == '+') = true) := by
      intro e
      exact h (by simp [beq_iff_eq.mp e])
    rw [List.dropWhile_cons]
    simp [hc]

/-- C3 counterexample: the decoder does not try the plain-string shape
first — a string event containing `data` as a substring trips the
`data`-field branch, where indexing a string by a string key raises, so
the decoder returns a 500 error instead of using the string as the phone
number. -/
theorem claim3_counterexample_string_event_with_data_substring :
    decodeEvent (Event.str "data") = DecodeResult.err500 "Error processing event" ∧
    decodeEvent (Event.str "data") ≠ DecodeResult.phone "data" := by
  decide

/-- C3 amended: the shapes are tried in the order encoded-`data` field,
plain string, direct mapping; for every event exposing a phone number by
one of these shapes — a plain string NOT containing `data` as a
substring, an encoded payload whose JSON object has a non-empty
`phone_number` value, or a `data`-less mapping with a `phone_number`
key — the decoder extracts that string. -/
theorem claim3_amended_decoder_shapes :
    (∀ s : String, strContains s "data" = false →
      decodeEvent (Event.str s) = DecodeResult.phone s) ∧
    (∀ (d : EventDict) (fields : List (String × String)) (p : String),
      d.httpMethod ≠ some "OPTIONS" → d.data = some (.jsonDict fields) →
      fields.lookup "phone_number" = some p → p ≠ "" →
      decodeEvent (Event.dict d) = DecodeResult.phone p) ∧
    (∀ (d : EventDict) (p : String),
      d.httpMethod ≠ some "OPTIONS" → d.data = none → d.phone_number = some p →
      decodeEvent (Event.dict d) = DecodeResult.phone p) := by
  refine ⟨fun s h => ?_, fun d fields p h1 h2 h3 h4 => ?_, fun d p h1 h2 h3 => ?_⟩
  · simp [decodeEvent, h]
  · simp [decodeEvent, h1, h2, h3, h4]
  · simp [decodeEvent, h1, h2, h3]

/-- Witness for C3 amended: the same phone number is extracted from each
of the three shapes at concrete inputs. -/
theorem claim3_witness :
    decodeEvent (Event.str "+51987654321") = DecodeResult.phone "+51987654321" ∧
    decodeEvent (Event.dict ⟨none, some (.jsonDict [("phone_number", "+51987654321")]), none⟩) =
      DecodeResult.phone "+51987654321" ∧
    decodeEvent (Event.dict ⟨none, none, some "+51987654321"⟩) =
      DecodeResult.phone "+51987654321" :=
  ⟨claim3_amended_decoder_shapes.1 "+51987654321" (by decide),
   claim3_amended_decoder_shapes.2.1 ⟨none, some (.jsonDict [("phone_number", "+51987654321")]),
     none⟩ [("phone_number", "+51987654321")] "+51987654321" (by decide) rfl (by decide)
     (by decide),
   claim3_amended_decoder_shapes.2.2 ⟨none, none, some "+51987654321"⟩ "+51987654321"
     (by decide) rfl rfl⟩

/-- C4 counterexample: the publish-path normalization does not strip a
single leading plus — on `++1` it strips both, not exactly one. -/
theorem claim4_counterexample_double_plus :
    lstripPlus "++1" = "1" ∧ lstripPlus "++1" ≠ "+1" := by
  decide

/-- C4 amended: the publish-path normalization strips ALL leading plus
characters and performs no other change — the PATCH goes to the endpoint
composed with the stripped number, the stripped number is a suffix of the
original preceded only by plus characters, it never starts with a plus, a
number without a leading plus is passed through unchanged, and a number
with exactly one leading plus loses exactly that character. -/
theorem claim4_amended_strip_all_leading_plus (t : TurnBehavior)
    (base phone summary : String) (h : summary ≠ "") :
    (push_profile_to_turn t phone summary base).1 =
      [Call.turnPatch (rstripSlash base ++ "/" ++ lstripPlus phone ++ "/profile") summary] ∧
    (∃ n, phone.data = List.replicate n '+' ++ (lstripPlus phone).data) ∧
    (∀ c, (lstripPlus phone).data.head? = some c → c ≠ '+') ∧
    (phone.data.head? ≠ some '+' → lstripPlus phone = phone) ∧
    (∀ rest : String, rest.data.head? ≠ some '+' → lstripPlus ⟨'+' :: rest.data⟩ = rest) := by
  refine ⟨push_calls_eq t phone summary base h, ?_, ?_, ?_, ?_⟩
  · refine ⟨(phone.data.takeWhile (· == '+')).length, ?_⟩
    have hrep : phone.data.takeWhile (· == '+') =
        List.replicate (phone.data.takeWhile (· == '+')).length '+' :=
      List.eq_replicate_iff.mpr ⟨rfl, fun b hb =>
        beq_iff_eq.mp (List.mem_takeWhile_imp (p := (· == '+')) hb)⟩
    conv_lhs => rw [← List.takeWhile_append_dropWhile (p := (· == '+')) (l := phone.data)]
    rw [← hrep]
    rfl
  · intro c hc
    have H := List.head?_dropWhile_not (· == '+') phone.data
    rw [show (lstripPlus phone).data = phone.data.dropWhile (· == '+') from rfl] at hc
    rw [hc] at H
    simpa using H
  · intro hh
    show (⟨phone.data.dropWhile (· == '+')⟩ : String) = phone
    rw [dropWhile_plus_of_head_ne phone.data hh]
  · intro rest hh
    show (⟨('+' :: rest.data).dropWhile (· == '+')⟩ : String) = rest
    rw [List.dropWhile_cons_of_pos (by decide), dropWhile_plus_of_head_ne rest.data hh]

/-- Witness for C4 amended: the outbound PATCH for `+51987654321` goes to
the endpoint composed with `51987654321`. -/
theorem claim4_witness :
    (push_profile_to_turn TurnBehavior.requestError "+51987654321" "perfil"
      "https://whatsapp.turn.io/v1/contacts/").1 =
      [Call.turnPatch "https://whatsapp.turn.io/v1/contacts/51987654321/profile" "perfil"] := by
  rw [(claim4_amended_strip_all_leading_plus TurnBehavior.requestError
    "https://whatsapp.turn.io/v1/contacts/" "+51987654321" "perfil" (by decide)).1]
  decide

/-- C5 counterexample: an event whose encoded `data` payload is not valid
base64 yields status 500, not the claimed client-error 400 (the
`binascii` error is not a `json.JSONDecodeError`, so it falls to the
generic handler); no external call occurs. -/
theorem claim5_counterexample_bad_base64_returns_500 :
    (generate_and_push_profile envFail eventBadBase64).1.status = 500 ∧
    (generate_and_push_profile envFail eventBadBase64).1.status ≠ 400 ∧
    (generate_and_push_profile envFail eventBadBase64).2 = [] := by
  decide

/-- C5 amended: for an encoded-`data` event, a payload that is not valid
base64 or not valid UTF-8, or whose JSON is not an object, returns status
500; a payload that decodes to invalid JSON, or to an object with a
missing or empty `phone_number` field, returns status 400; in every one
of these cases the pipeline performs no external call. -/
theorem claim5_amended_decode_failures (env : Env) (d : EventDict)
    (hopt : d.httpMethod ≠ some "OPTIONS") :
    (d.data = some .badBase64 →
      (generate_and_push_profile env (Event.dict d)).1.status = 500 ∧
      (generate_and_push_profile env (Event.dict d)).2 = []) ∧
    (d.data = some .badUtf8 →
      (generate_and_push_profile env (Event.dict d)).1.status = 500 ∧
      (generate_and_push_profile env (Event.dict d)).2 = []) ∧
    (∀ s, d.data = some (.badJson s) →
      (generate_and_push_profile env (Event.dict d)).1.status = 400 ∧
      (generate_and_push_profile env (Event.dict d)).2 = []) ∧
    (∀ s, d.data = some (.jsonNonDict s) →
      (generate_and_push_profile env (Event.dict d)).1.status = 500 ∧
      (generate_and_push_profile env (Event.dict d)).2 = []) ∧
    (∀ fields, d.data = some (.jsonDict fields) → fields.lookup "phone_number" = none →
      (generate_and_push_profile env (Event.dict d)).1.status = 400 ∧
      (generate_and_push_profile env (Event.dict d)).2 = []) ∧
    (∀ fields, d.data = some (.jsonDict fields) → fields.lookup "phone_number" = some "" →
      (generate_and_push_profile env (Event.dict d)).1.status = 400 ∧
      (generate_and_push_profile env (Event.dict d)).2 = []) := by
  refine ⟨fun h => ?_, fun h => ?_, fun s h => ?_, fun s h => ?_,
    fun fields h hl => ?_, fun fields h hl => ?_⟩
  · rw [pipeline_err500 env _ "Error processing event" (by simp [decodeEvent, hopt, h])]
    exact ⟨rfl, rfl⟩
  · rw [pipeline_err500 env _ "Error processing event" (by simp [decodeEvent, hopt, h])]
    exact ⟨rfl, rfl⟩
  · rw [pipeline_err400 env _ "Error decoding JSON" (by simp [decodeEvent, hopt, h])]
    exact ⟨rfl, rfl⟩
  · rw [pipeline_err500 env _ "Error processing event" (by simp [decodeEvent, hopt, h])]
    exact ⟨rfl, rfl⟩
  · rw [pipeline_err400 env _ "Error: phone_number missing in payload."
      (by simp [decodeEvent, hopt, h, hl])]
    exact ⟨rfl, rfl⟩
  · rw [pipeline_err400 env _ "Error: phone_number missing in payload."
      (by simp [decodeEvent, hopt, h, hl])]
    exact ⟨rfl, rfl⟩

/-- Witness for C5 amended: the six decode-failure shapes at concrete
inputs, with their statuses and empty call traces. -/
theorem claim5_witness :
    (generate_and_push_profile envFail (Event.dict ⟨none, some .badBase64, none⟩)).1.status
      = 500 ∧
    (generate_and_push_profile envFail (Event.dict ⟨none, some .badUtf8, none⟩)).1.status
      = 500 ∧
    (generate_and_push_profile envFail (Event.dict ⟨none, some (.badJson "x"), none⟩)).1.status
      = 400 ∧
    (generate_and_push_profile envFail (Event.dict ⟨none, some (.jsonNonDict "3"),
      none⟩)).1.status = 500 ∧
    (generate_and_push_profile envFail (Event.dict ⟨none, some (.jsonDict []),
      none⟩)).1.status = 400 ∧
    (generate_and_push_profile envFail (Event.dict ⟨none,
      some (.jsonDict [("phone_number", "")]), none⟩)).2 = [] :=
  ⟨((claim5_amended_decode_failures envFail ⟨none, some .badBase64, none⟩ (by decide)).1
      rfl).1,
   ((claim5_amended_decode_failures envFail ⟨none, some .badUtf8, none⟩ (by decide)).2.1
      rfl).1,
   ((claim5_amended_decode_failures envFail ⟨none, some (.badJson "x"), none⟩
      (by decide)).2.2.1 "x" rfl).1,
   ((claim5_amended_decode_failures envFail ⟨none, some (.jsonNonDict "3"), none⟩
      (by decide)).2.2.2.1 "3" rfl).1,
   ((claim5_amended_decode_failures envFail ⟨none, some (.jsonDict []), none⟩
      (by decide)).2.2.2.2.1 [] rfl (by decide)).1,
   ((claim5_amended_decode_failures envFail ⟨none, some (.jsonDict [("phone_number", "")]),
      none⟩ (by decide)).2.2.2.2.2 [("phone_number", "")] rfl (by decide)).2⟩

/-- Under the intended query semantics, every output row originates from
an inbound-direction row whose resolved text is non-null, and the output
is ordered ascending by timestamp.  This is what the query's comments and
the filters aim at; in the deployed code the path is unreachable (the
query fails name analysis, see the claim theorems below). -/
theorem runQuery_intended_filters_and_order (table : List MessageRow) (phone : String) :
    List.Pairwise (fun a b : Option String × Nat => a.2 ≤ b.2) (runQuery table phone) ∧
    ∀ q ∈ runQuery table phone, q.1.isSome = true ∧
      ∃ r ∈ table, r.direction = "inbound" ∧ coalesce3 r = q.1 ∧ r.inserted_at = q.2 := by
  constructor
  · have hs : List.Pairwise byTs
        (((keepFirstByKey (table.filter (matchesPhone phone)) []).filter
          (fun r => r.direction == "inbound" && (outerCoalesce r).isSome)).insertionSort
            byTs) :=
      List.sorted_insertionSort byTs _
    have ht := List.Pairwise.sublist (List.take_sublist 50 _) hs
    exact ht.map dedupKey (fun a b h => h)
  · intro q hq
    obtain ⟨r, hr, rfl⟩ := List.mem_map.mp hq
    have hr1 := List.take_subset 50 _ hr
    have hr2 := (List.mem_insertionSort byTs).mp hr1
    obtain ⟨hrded, hpred⟩ := List.mem_filter.mp hr2
    simp only [Bool.and_eq_true, beq_iff_eq] at hpred
    have hmem : r ∈ table :=
      (List.mem_filter.mp ((keepFirstByKey_sublist _ _).subset hrded)).1
    refine ⟨?_, r, hmem, hpred.1, rfl, rfl⟩
    show (coalesce3 r).isSome = true
    rw [← outerCoalesce_eq]
    exact hpred.2

/-- C8 (code bug): the deployed query never performs its deduplication.
The outer `WHERE` references `message` — the alias of its own SELECT
list, per the code comment at `src/main.py` line 100 — but the subquery
exposes no such column and GoogleSQL does not let a `WHERE` clause see
SELECT-list aliases, so name analysis fails on every execution
(Unrecognized name: message), before any row is read.  The exception is
caught at `src/main.py` lines 115-118 and History Fetch returns the empty
list: a dataset holding two rows with identical resolved text and
timestamp yields zero output entries, not the one entry the claim
describes.  The deduplication design itself is sound: under the intended
semantics (the alias bug fixed) the output never holds two entries with
the same (resolved text, timestamp) pair, whichever tied row the window
keeps. -/
theorem claim8_alias_in_where_defeats_dedup :
    ("message" ∈ outerWhereColumnRefs ∧ "message" ∉ subqueryOutputColumns) ∧
    messageHistoryQueryAnalyzes = false ∧
    fetch_message_history WarehouseBehavior.failure "p" = ([], [Call.bigquery "p"]) ∧
    ∀ table phone, (runQuery table phone).Nodup :=
  ⟨by decide, by decide, rfl, runQuery_keys_nodup⟩

/-- C9 (code bug): History Fetch never returns the inbound, non-null,
ascending rows the claim describes.  The query's outer `WHERE` references
the SELECT alias `message`, which GoogleSQL name analysis rejects on
every run; the exception handler at `src/main.py` lines 115-118 then
returns the empty list whatever the stored dataset, so the filter and
ordering path never executes.  That path, as the query's comments intend
it, would order the output ascending by timestamp (the accompanying
development lemma also traces every intended output row to an inbound,
non-null source row). -/
theorem claim9_alias_in_where_defeats_filters :
    messageHistoryQueryAnalyzes = false ∧
    (∀ phone, (fetch_message_history WarehouseBehavior.failure phone).1 = []) ∧
    ∀ table phone, List.Pairwise (fun a b : Option String × Nat => a.2 ≤ b.2)
      (runQuery table phone) :=
  ⟨by decide, fun _ => rfl, fun table phone =>
    (runQuery_intended_filters_and_order table phone).1⟩

end MaiaProfiles
